import Mathlib

/-!
Shallow embedding of the client-side cache layer of the mws-restaurant
repository (`src/js/dbhelper.js`, class `DBHelper`).

The IndexedDB object stores are modelled as lists of records keyed by the
`id` field (the code always passes `record.id` as the explicit key).  The
asynchronous operations are modelled as pure state transformers: each
operation takes the current cache state, the current time, and the outcome
of any network fetch it performs (`none` models a failed fetch, which the
code maps to `undefined`), and returns the new state together with its
observable result.  Event ordering that matters to the claims (local
persist vs. remote PUT vs. promise resolution in `toggleFavorite`) is
recorded as an explicit event trace.
-/

namespace DBHelper

/-- A restaurant record as stored in the `restaurants` object store. -/
structure Restaurant where
  id : Int
  name : String
  cuisine_type : String
  neighborhood : String
  photograph : Option String
  is_favorite : Bool
deriving Repr, DecidableEq

/-- A review record as stored in the `reviews` object store. -/
structure Review where
  id : Int
  restaurant_id : Int
  name : String
  rating : Int
  comments : String
deriving Repr, DecidableEq

/-- The mutable state of a `DBHelper` instance: the two object stores and
the freshness bookkeeping.  `lastupdate` in the source is a plain object
holding the key `restaurants` plus one numeric key per restaurant whose
reviews have been synced; we split it into `restLast` (the `restaurants`
key, initialised to 0 in the constructor) and `revLast` (the per-restaurant
keys, an association list).  `reloading` is the advisory in-flight flag. -/
structure CacheState where
  restaurants : List Restaurant
  reviews : List Review
  restLast : Int
  revLast : List (Int × Int)
  reloading : Bool
deriving Repr, DecidableEq

/-- `get CACHE_LIFETIME()` — the TTL, 10 (milliseconds). -/
def CACHE_LIFETIME : Int := 10

/-- The state of a freshly constructed `DBHelper`:
`lastupdate = { restaurants: 0 }`, `reloading = false`, empty stores. -/
def initialState : CacheState :=
  { restaurants := [], reviews := [], restLast := 0, revLast := [], reloading := false }

/-- `_clearStore('restaurants')`: deletes the key range
`IDBKeyRange.lowerBound(0)`, i.e. every record whose key is `≥ 0`.
Records stored under a negative id survive. -/
def clearStoreRestaurants (st : CacheState) : CacheState :=
  { st with restaurants := st.restaurants.filter (fun r => decide (r.id < 0)) }

/-- `_clearStore('reviews')`: same key range `lowerBound(0)` on the
`reviews` store. -/
def clearStoreReviews (st : CacheState) : CacheState :=
  { st with reviews := st.reviews.filter (fun r => decide (r.id < 0)) }

/-- `_insertRestaurantsFromData(data)`: if `data` is `undefined` (`none`)
resolve to `false` without touching the stores; otherwise clear the
`restaurants` store, then the `reviews` store, then add every record of
`data` (keyed by `record.id`) and resolve to `true`. -/
def insertRestaurantsFromData (st : CacheState) (data : Option (List Restaurant)) :
    CacheState × Bool :=
  match data with
  | none => (st, false)
  | some d =>
      let st2 := clearStoreReviews (clearStoreRestaurants st)
      ({ st2 with restaurants := st2.restaurants ++ d }, true)

/-- `_initializeRestaurantsFromService()`: the fetch result is `none` on a
network error (the error handler returns `undefined`), `some data` on
success; either way the result is piped into `_insertRestaurantsFromData`. -/
def initRestaurantsFromService (st : CacheState)
    (fetchResult : Option (List Restaurant)) : CacheState × Bool :=
  insertRestaurantsFromData st fetchResult

/-- `_updateFromService()`, the non-waiting path (the `reloading` poll loop
is modelled separately by `waitLoop`).  `now` is `Date.now()`; the returned
flag records whether a network fetch was issued.  On success
(`reloaded = true`) the whole `lastupdate` object is replaced by
`{ restaurants: Date.now() }`, dropping every per-restaurant key. -/
def updateFromService (st : CacheState) (now : Int)
    (fetchResult : Option (List Restaurant)) : CacheState × Bool :=
  if st.restLast > now - CACHE_LIFETIME then
    (st, false)
  else
    let st1 := { st with reloading := true }
    let p := initRestaurantsFromService st1 fetchResult
    let st3 := if p.2 then { p.1 with restLast := now, revLast := [] } else p.1
    ({ st3 with reloading := false }, true)

/-- `_clearReviews(restaurant_id)`: walks the `restaurant` index for the
given restaurant id and deletes each visited record whose `id > 0`
("except local ones").  Records of other restaurants, and records with
`id ≤ 0`, are untouched. -/
def clearReviews (st : CacheState) (rid : Int) : CacheState :=
  { st with reviews :=
      st.reviews.filter (fun r => !(decide (r.restaurant_id = rid) && decide (0 < r.id))) }

/-- `_insertReviewsFromData(restaurant_id, data)`: `undefined` data resolves
to `false`; otherwise clear that restaurant's (server-side) reviews and add
every fetched record, resolving to `true`. -/
def insertReviewsFromData (st : CacheState) (rid : Int) (data : Option (List Review)) :
    CacheState × Bool :=
  match data with
  | none => (st, false)
  | some d =>
      let st1 := clearReviews st rid
      ({ st1 with reviews := st1.reviews ++ d }, true)

/-- The freshness test of `_updateReviewsFromService`:
`restaurant_id in this.lastupdate && this.lastupdate[restaurant_id] > Date.now() - CACHE_LIFETIME`. -/
def reviewsFresh (st : CacheState) (rid now : Int) : Bool :=
  match st.revLast.lookup rid with
  | some t => decide (t > now - CACHE_LIFETIME)
  | none => false

/-- `this.lastupdate[restaurant_id] = Date.now()`: set one key of the
association list, keeping all other keys. -/
def setRevLast (rid now : Int) (l : List (Int × Int)) : List (Int × Int) :=
  (rid, now) :: l.filter (fun p => decide (p.1 ≠ rid))

/-- `_updateReviewsFromService(restaurant_id)`, non-waiting path.  On
success only the key for this restaurant is written into `lastupdate`. -/
def updateReviewsFromService (st : CacheState) (rid now : Int)
    (fetchResult : Option (List Review)) : CacheState × Bool :=
  if reviewsFresh st rid now then
    (st, false)
  else
    let st1 := { st with reloading := true }
    let p := insertReviewsFromData st1 rid fetchResult
    let st3 := if p.2 then { p.1 with revLast := setRevLast rid now p.1.revLast } else p.1
    ({ st3 with reloading := false }, true)

/-- `_fetchByIndex('reviews', 'restaurant', restaurant_id)`: all records of
the `reviews` store whose indexed `restaurant_id` field equals the key. -/
def fetchByIndexReviews (st : CacheState) (rid : Int) : List Review :=
  st.reviews.filter (fun r => decide (r.restaurant_id = rid))

/-- `fetchReviews(restaurant_id)`: freshness-gated refresh, then the index
query. -/
def fetchReviews (st : CacheState) (rid now : Int)
    (fetchResult : Option (List Review)) : CacheState × List Review :=
  let p := updateReviewsFromService st rid now fetchResult
  (p.1, fetchByIndexReviews p.1 rid)

/-- `fetchRestaurants()`: freshness-gated refresh, then a full cursor over
the `restaurants` store. -/
def fetchRestaurants (st : CacheState) (now : Int)
    (fetchResult : Option (List Restaurant)) : CacheState × List Restaurant :=
  let p := updateFromService st now fetchResult
  (p.1, p.1.restaurants)

/-- `store.get(restaurant_id)` on the `restaurants` store. -/
def findRestaurant (st : CacheState) (rid : Int) : Option Restaurant :=
  st.restaurants.find? (fun r => decide (r.id = rid))

/-- The externally observable events of one `toggleFavorite` run, in the
order the code produces them. -/
inductive TEvent
  /-- the readwrite transaction holding `store.put` completed -/
  | localPersist (v : Bool)
  /-- the `PUT /restaurants/<id>?is_favorite=<v>` request was issued -/
  | putStart (v : Bool)
  /-- the remote PUT was acknowledged -/
  | putAck
  /-- the promise returned by `toggleFavorite` resolved (`none` = `undefined`) -/
  | resolved (v : Option Bool)
deriving Repr, DecidableEq

/-- Whether the promise returned by `toggleFavorite` ever settles. -/
inductive ToggleResult
  /-- the promise resolved with this value (`none` = `undefined`) -/
  | settled (v : Option Bool)
  /-- the promise never resolves nor rejects -/
  | pending
deriving Repr, DecidableEq

/-- `toggleFavorite(restaurant_id)`.  `putSucceeds` is the fate of the
remote PUT.  When the record is absent, `rq.result` is `undefined` and the
success handler throws a `TypeError` on `restaurant.is_favorite` before the
transaction handlers are installed: nothing ever resolves or rejects the
inner promise, so the returned promise stays pending and no PUT is issued.
When the record exists, the flipped record is `put` locally; the inner
promise resolves on that transaction's completion, after which the PUT is
issued, and only once the PUT settles does the returned promise resolve —
with the flipped value on success, or `undefined` via the `catch` on
failure. -/
def toggleFavorite (st : CacheState) (rid : Int) (putSucceeds : Bool) :
    CacheState × ToggleResult × List TEvent :=
  match findRestaurant st rid with
  | none => (st, ToggleResult.pending, [])
  | some r =>
      let v := !r.is_favorite
      let newRests :=
        st.restaurants.map (fun x => if x.id = rid then { x with is_favorite := v } else x)
      let st1 := { st with restaurants := newRests }
      if putSucceeds then
        (st1, ToggleResult.settled (some v),
          [TEvent.localPersist v, TEvent.putStart v, TEvent.putAck, TEvent.resolved (some v)])
      else
        (st1, ToggleResult.settled none,
          [TEvent.localPersist v, TEvent.putStart v, TEvent.resolved none])

/-- `resolved` precedes any `putAck` in the trace — the formal reading of
"resolves without waiting for the remote PUT acknowledgment". -/
def resolvesBeforePutAck (es : List TEvent) : Bool :=
  match es.findIdx? (fun e => match e with | TEvent.resolved _ => true | _ => false),
        es.findIdx? (fun e => match e with | TEvent.putAck => true | _ => false) with
  | some i, some j => decide (i < j)
  | some _, none => true
  | _, _ => false

/-- The JSON body of the `POST /reviews` request built by `addReview`
(`{restaurant_id, name, rating, comments}` — note: no id, the server
assigns one). -/
structure PostReviewRequest where
  restaurant_id : Int
  name : String
  rating : Int
  comments : String
deriving Repr, DecidableEq

/-- `addReview(restaurant_id, name, rating, comments)`: builds the review
object and POSTs it to the remote service.  The body contains no write to
the local store whatsoever (the local-update branch is a `TODO`), so the
cache state is returned unchanged alongside the outgoing request. -/
def addReview (st : CacheState) (rid : Int) (name : String) (rating : Int)
    (comments : String) : CacheState × PostReviewRequest :=
  (st, { restaurant_id := rid, name := name, rating := rating, comments := comments })

/-- Environment model of the remote service (an external collaborator):
its current set of review records. `GET /reviews?restaurant_id=<id>`
returns the records for that restaurant. -/
def serverReviewsFor (server : List Review) (rid : Int) : List Review :=
  server.filter (fun r => decide (r.restaurant_id = rid))

/-- Environment model: the server processes a `POST /reviews` body by
storing it under a freshly assigned id. -/
def serverProcessPost (server : List Review) (req : PostReviewRequest) (newId : Int) :
    List Review :=
  server ++ [{ id := newId, restaurant_id := req.restaurant_id, name := req.name,
               rating := req.rating, comments := req.comments }]

/-- The `reloading` poll loop shared by `_updateFromService` and
`_updateReviewsFromService`: while the flag is observed `true`, wait 10 ms
and try again; there is no cap on the number of retries.  `reloadingAt k`
is the flag observed at the `k`-th poll; the result is the poll index at
which the caller proceeds, or `none` if it is still waiting after `fuel`
polls. -/
def waitLoop (reloadingAt : Nat → Bool) : Nat → Nat → Option Nat
  | 0, _ => none
  | fuel + 1, k => if reloadingAt k then waitLoop reloadingAt fuel (k + 1) else some k

/-- The sequence of states a restaurants refresh moves the store through,
one entry per committed step: flag raised (fetch in flight), `restaurants`
cleared (its own transaction), `reviews` cleared (its own transaction),
fetched data inserted (a third transaction), bookkeeping updated and flag
lowered.  Each intermediate state is durably visible to any store access
that happens between two steps. -/
def refreshIntermediates (st : CacheState) (now : Int) (data : List Restaurant) :
    List CacheState :=
  let s1 := { st with reloading := true }
  let s2 := clearStoreRestaurants s1
  let s3 := clearStoreReviews s2
  let s4 := { s3 with restaurants := s3.restaurants ++ data }
  let s5 := { s4 with restLast := now, revLast := [], reloading := false }
  [s1, s2, s3, s4, s5]

/-- `imageUrlForRestaurant(restaurant, size)`: substitutes `restaurant.id`
for an `undefined` photograph; `!size` (so also `size = 0`) selects the
width-less URL. -/
def imageUrlForRestaurant (r : Restaurant) (size : Option Nat) : String :=
  let photograph := match r.photograph with
    | some p => p
    | none => toString r.id
  match size with
  | none => "/img/" ++ photograph ++ ".jpg"
  | some s =>
      if s = 0 then "/img/" ++ photograph ++ ".jpg"
      else "/img/" ++ toString s ++ "w-" ++ photograph ++ ".jpg"

/-! Concrete fixtures used by the counterexamples and witnesses. -/

/-- Example restaurant with a photograph reference, id 1. -/
def exItalian : Restaurant :=
  { id := 1, name := "A", cuisine_type := "Italian", neighborhood := "Manhattan",
    photograph := some "1", is_favorite := false }

/-- Example restaurant whose `photograph` field is undefined, id 42. -/
def exThai : Restaurant :=
  { id := 42, name := "B", cuisine_type := "Thai", neighborhood := "Brooklyn",
    photograph := none, is_favorite := false }

/-- Example record stored under a negative id (a "local" record, which the
clear steps deliberately skip). -/
def exLocalRec : Restaurant :=
  { id := -3, name := "L", cuisine_type := "X", neighborhood := "Y",
    photograph := none, is_favorite := true }

/-- Example server-assigned review for restaurant 7. -/
def exReview : Review :=
  { id := 11, restaurant_id := 7, name := "Bob", rating := 4, comments := "ok" }

/-- Example stale cache state: three restaurants, one review, a
per-restaurant review freshness timestamp for restaurant 7, `restLast = 0`. -/
def exState : CacheState :=
  { restaurants := [exItalian, exThai, exLocalRec], reviews := [exReview],
    restLast := 0, revLast := [(7, 5)], reloading := false }

/-- Example remote review set. -/
def exServer : List Review := [exReview]

/-- The state produced by a successful restaurants refresh of `exState` at
time 100. -/
def exFinalState : CacheState := (updateFromService exState 100 (some [exItalian])).1

/-! Helper lemmas. -/

/-- Staleness of the per-restaurant freshness test is preserved by moving
to a later time, as long as the timestamp table is the same. -/
theorem reviewsFresh_false_of_le (st st2 : CacheState) (rid now now2 : Int)
    (hrev : st2.revLast = st.revLast) (hle : now ≤ now2)
    (h : reviewsFresh st rid now = false) : reviewsFresh st2 rid now2 = false := by
  unfold reviewsFresh at h ⊢
  rw [hrev]
  cases hcase : st.revLast.lookup rid with
  | none => rfl
  | some t =>
      rw [hcase] at h
      simp [CACHE_LIFETIME] at h ⊢
      omega

/-! Claim theorems. -/

/-- C10: when `photograph` is undefined, `imageUrlForRestaurant`
substitutes the restaurant's id for the photograph reference, returning
`/img/<id>.jpg` without a size and `/img/<size>w-<id>.jpg` with a
(positive) size. -/
theorem imageUrl_substitutes_id (r : Restaurant) (s : Nat)
    (hp : r.photograph = none) (hs : 0 < s) :
    imageUrlForRestaurant r none = "/img/" ++ toString r.id ++ ".jpg" ∧
    imageUrlForRestaurant r (some s) =
      "/img/" ++ toString s ++ "w-" ++ toString r.id ++ ".jpg" := by
  constructor <;> simp [imageUrlForRestaurant, hp, hs.ne']

/-- Witness for C10 at the concrete restaurant 42 and width 200. -/
theorem imageUrl_substitutes_id_witness :
    exThai.photograph = none ∧ 0 < 200 ∧
    (imageUrlForRestaurant exThai none = "/img/" ++ toString exThai.id ++ ".jpg" ∧
     imageUrlForRestaurant exThai (some 200) =
       "/img/" ++ toString 200 ++ "w-" ++ toString exThai.id ++ ".jpg") :=
  ⟨rfl, by decide, imageUrl_substitutes_id exThai 200 rfl (by decide)⟩

/-- C6 (evaluation at the failing input): on a cache holding no record for
id 999, `toggleFavorite` issues no remote PUT (the event trace is empty)
and the returned promise never settles — in particular no Not-Found error
is ever surfaced to the caller. -/
theorem toggleFavorite_missing_id_hangs :
    toggleFavorite initialState 999 true =
      (initialState, ToggleResult.pending, []) := rfl

/-- C5: after a refresh that syncs successfully at `t0`, a second
refresh-triggering call at `t1` with `t1 - t0 < CACHE_LIFETIME` makes no
network call and uses the cached data as-is, so the pair performs exactly
one network fetch. -/
theorem refresh_ttl_single_fetch (st : CacheState) (t0 t1 : Int)
    (d : List Restaurant) (fr2 : Option (List Restaurant))
    (hstale : ¬ st.restLast > t0 - CACHE_LIFETIME)
    (hgap : t1 - t0 < CACHE_LIFETIME) :
    (updateFromService st t0 (some d)).2 = true ∧
    (updateFromService (updateFromService st t0 (some d)).1 t1 fr2).2 = false ∧
    (updateFromService (updateFromService st t0 (some d)).1 t1 fr2).1 =
      (updateFromService st t0 (some d)).1 := by
  have h1 : (updateFromService st t0 (some d)).1.restLast = t0 := by
    simp [updateFromService, hstale, initRestaurantsFromService, insertRestaurantsFromData]
  have hfresh : (updateFromService st t0 (some d)).1.restLast > t1 - CACHE_LIFETIME := by
    rw [h1]; simp [CACHE_LIFETIME] at hgap ⊢; omega
  refine ⟨?_, ?_, ?_⟩
  · simp [updateFromService, hstale]
  · rw [updateFromService, if_pos hfresh]
  · rw [updateFromService, if_pos hfresh]

/-- Witness for C5: `exState` is stale at time 100 and the second call at
time 105 is within the TTL. -/
theorem refresh_ttl_single_fetch_witness :
    (¬ exState.restLast > 100 - CACHE_LIFETIME) ∧ (105 - 100 < CACHE_LIFETIME) ∧
    ((updateFromService exState 100 (some [exItalian])).2 = true ∧
     (updateFromService (updateFromService exState 100 (some [exItalian])).1 105 none).2 = false ∧
     (updateFromService (updateFromService exState 100 (some [exItalian])).1 105 none).1 =
       (updateFromService exState 100 (some [exItalian])).1) :=
  ⟨by decide, by decide,
   refresh_ttl_single_fetch exState 100 105 [exItalian] none (by decide) (by decide)⟩

/-- C8 counterexample: `exState` holds the review freshness timestamp 5
for restaurant 7; a successful restaurants refresh at time 100 replaces the
whole `lastupdate` object, and the key for restaurant 7 is gone — the
per-restaurant timestamps ARE reset. -/
theorem restaurants_refresh_drops_review_timestamps :
    exState.revLast.lookup 7 = some 5 ∧
    ((updateFromService exState 100 (some [exItalian])).1).revLast.lookup 7 = none := by
  constructor <;> rfl

/-- C8 amended: every successful restaurants refresh clears the reviews
store of all records with id ≥ 0 and replaces the whole `lastupdate`
object with `{ restaurants: now }`, dropping every per-restaurant review
freshness timestamp. -/
theorem restaurants_refresh_resets_reviews_and_timestamps
    (st : CacheState) (now : Int) (d : List Restaurant)
    (hstale : ¬ st.restLast > now - CACHE_LIFETIME) :
    ((updateFromService st now (some d)).1).reviews =
      st.reviews.filter (fun r => decide (r.id < 0)) ∧
    ((updateFromService st now (some d)).1).revLast = [] ∧
    ((updateFromService st now (some d)).1).restLast = now := by
  refine ⟨?_, ?_, ?_⟩ <;>
    simp [updateFromService, hstale, initRestaurantsFromService,
          insertRestaurantsFromData, clearStoreRestaurants, clearStoreReviews]

/-- Witness for C8's amended claim at `exState`, time 100. -/
theorem restaurants_refresh_resets_reviews_and_timestamps_witness :
    (¬ exState.restLast > 100 - CACHE_LIFETIME) ∧
    (((updateFromService exState 100 (some [exItalian])).1).reviews =
       exState.reviews.filter (fun r => decide (r.id < 0)) ∧
     ((updateFromService exState 100 (some [exItalian])).1).revLast = [] ∧
     ((updateFromService exState 100 (some [exItalian])).1).restLast = 100) :=
  ⟨by decide,
   restaurants_refresh_resets_reviews_and_timestamps exState 100 [exItalian] (by decide)⟩

/-- C1: a refresh whose remote fetch fails (the error handler yields
`undefined`) leaves the refreshed collection's local contents and its
freshness timestamp untouched, so a refresh-triggering call at any later
time fetches again; stated both for the restaurants refresh and for the
per-restaurant reviews refresh. -/
theorem fetch_failure_keeps_cache_and_retries
    (st : CacheState) (rid now now2 : Int)
    (fr2 : Option (List Restaurant)) (fr3 : Option (List Review))
    (hstaleR : ¬ st.restLast > now - CACHE_LIFETIME)
    (hstaleV : reviewsFresh st rid now = false)
    (hle : now ≤ now2) :
    ((updateFromService st now none).1.restaurants = st.restaurants ∧
     (updateFromService st now none).1.reviews = st.reviews ∧
     (updateFromService st now none).1.restLast = st.restLast ∧
     (updateFromService st now none).1.revLast = st.revLast ∧
     (updateFromService (updateFromService st now none).1 now2 fr2).2 = true) ∧
    ((updateReviewsFromService st rid now none).1.reviews = st.reviews ∧
     (updateReviewsFromService st rid now none).1.revLast = st.revLast ∧
     (updateReviewsFromService (updateReviewsFromService st rid now none).1 rid now2 fr3).2 =
       true) := by
  have hR : (updateFromService st now none).1 = { st with reloading := false } := by
    simp [updateFromService, hstaleR, initRestaurantsFromService, insertRestaurantsFromData]
  have hV : (updateReviewsFromService st rid now none).1 = { st with reloading := false } := by
    simp [updateReviewsFromService, hstaleV, insertReviewsFromData]
  constructor
  · rw [hR]
    refine ⟨rfl, rfl, rfl, rfl, ?_⟩
    have hstill : ¬ ({ st with reloading := false } : CacheState).restLast >
        now2 - CACHE_LIFETIME := by
      simp [CACHE_LIFETIME] at hstaleR ⊢; omega
    rw [updateFromService, if_neg hstill]
  · rw [hV]
    refine ⟨rfl, rfl, ?_⟩
    have hstill : reviewsFresh { st with reloading := false } rid now2 = false :=
      reviewsFresh_false_of_le st { st with reloading := false } rid now now2 rfl hle hstaleV
    rw [updateReviewsFromService, if_neg (by simp [hstill])]

/-- Witness for C1 at `exState`, restaurant 7, times 100 and 200. -/
theorem fetch_failure_keeps_cache_and_retries_witness :
    (¬ exState.restLast > 100 - CACHE_LIFETIME) ∧
    reviewsFresh exState 7 100 = false ∧ (100 : Int) ≤ 200 ∧
    (((updateFromService exState 100 none).1.restaurants = exState.restaurants ∧
      (updateFromService exState 100 none).1.reviews = exState.reviews ∧
      (updateFromService exState 100 none).1.restLast = exState.restLast ∧
      (updateFromService exState 100 none).1.revLast = exState.revLast ∧
      (updateFromService (updateFromService exState 100 none).1 200 none).2 = true) ∧
     ((updateReviewsFromService exState 7 100 none).1.reviews = exState.reviews ∧
      (updateReviewsFromService exState 7 100 none).1.revLast = exState.revLast ∧
      (updateReviewsFromService (updateReviewsFromService exState 7 100 none).1 7 200 none).2 =
        true)) :=
  ⟨by decide, by decide, by decide,
   fetch_failure_keeps_cache_and_retries exState 7 100 200 none none
     (by decide) (by decide) (by decide)⟩

/-- Finding a record by id after the in-place favorite update: the first
record with the given id is returned with its flag replaced. -/
theorem find?_map_update (l : List Restaurant) (rid : Int) (v : Bool) (r : Restaurant)
    (h : l.find? (fun x => decide (x.id = rid)) = some r) :
    (l.map (fun x => if x.id = rid then { x with is_favorite := v } else x)).find?
      (fun x => decide (x.id = rid)) = some { r with is_favorite := v } := by
  induction l with
  | nil => simp at h
  | cons a l ih =>
      by_cases ha : a.id = rid
      · rw [List.find?_cons_of_pos _ (by simp [ha])] at h
        have hr : a = r := Option.some.inj h
        subst hr
        simp only [List.map_cons, if_pos ha]
        rw [List.find?_cons_of_pos _ (by simp [ha])]
      · rw [List.find?_cons_of_neg _ (by simp [ha])] at h
        simp only [List.map_cons, if_neg ha]
        rw [List.find?_cons_of_neg _ (by simp [ha])]
        exact ih h

/-- C2 counterexample: on `exState` — which holds restaurant 42 with
`is_favorite = false` — and a successful PUT, `toggleFavorite` does resolve
`true`, but the resolution event comes strictly after the remote PUT
acknowledgment: it is not the case that it resolves without waiting for
the PUT. -/
theorem toggleFavorite_resolves_after_put_ack :
    (toggleFavorite exState 42 true).2.1 = ToggleResult.settled (some true) ∧
    resolvesBeforePutAck ((toggleFavorite exState 42 true).2.2) = false := by
  constructor <;> rfl

/-- C2 amended: when the record exists, the flipped value is persisted
locally before the remote PUT is issued — an immediate read-back of the
record shows the new value even though the PUT has not completed — but the
promise returned by `toggleFavorite` settles only once the PUT settles:
with the flipped value if the PUT succeeds, with `undefined` if it fails. -/
theorem toggleFavorite_persists_first_resolves_after
    (st : CacheState) (rid : Int) (r : Restaurant) (ok : Bool)
    (h : findRestaurant st rid = some r) :
    findRestaurant (toggleFavorite st rid ok).1 rid =
      some { r with is_favorite := !r.is_favorite } ∧
    (toggleFavorite st rid ok).2.1 =
      ToggleResult.settled (if ok then some (!r.is_favorite) else none) ∧
    (toggleFavorite st rid ok).2.2 =
      (if ok then
        [TEvent.localPersist (!r.is_favorite), TEvent.putStart (!r.is_favorite),
         TEvent.putAck, TEvent.resolved (some (!r.is_favorite))]
       else
        [TEvent.localPersist (!r.is_favorite), TEvent.putStart (!r.is_favorite),
         TEvent.resolved none]) := by
  have hfind : (toggleFavorite st rid ok).1.restaurants.find?
      (fun x => decide (x.id = rid)) = some { r with is_favorite := !r.is_favorite } := by
    cases ok <;>
      simp only [toggleFavorite, findRestaurant] at h ⊢ <;>
      rw [h] <;>
      exact find?_map_update st.restaurants rid (!r.is_favorite) r h
  refine ⟨hfind, ?_, ?_⟩ <;>
    cases ok <;>
    simp only [toggleFavorite, findRestaurant] at h ⊢ <;>
    rw [h] <;> rfl

/-- Witness for C2's amended claim: restaurant 42 of `exState` with a
successful PUT. -/
theorem toggleFavorite_persists_first_resolves_after_witness :
    findRestaurant exState 42 = some exThai ∧
    (findRestaurant (toggleFavorite exState 42 true).1 42 =
       some { exThai with is_favorite := !exThai.is_favorite } ∧
     (toggleFavorite exState 42 true).2.1 =
       ToggleResult.settled (if true then some (!exThai.is_favorite) else none) ∧
     (toggleFavorite exState 42 true).2.2 =
       (if true then
         [TEvent.localPersist (!exThai.is_favorite), TEvent.putStart (!exThai.is_favorite),
          TEvent.putAck, TEvent.resolved (some (!exThai.is_favorite))]
        else
         [TEvent.localPersist (!exThai.is_favorite), TEvent.putStart (!exThai.is_favorite),
          TEvent.resolved none])) :=
  ⟨by decide, toggleFavorite_persists_first_resolves_after exState 42 exThai true (by decide)⟩

/-- With the in-flight flag observed true at every poll, the wait loop
never proceeds, whatever the retry budget. -/
theorem waitLoop_allTrue (fuel k : Nat) :
    waitLoop (fun _ => true) fuel k = none := by
  induction fuel generalizing k with
  | zero => rfl
  | succ n ih => simp [waitLoop, ih]

/-- C7 counterexample: if the in-flight refresh never completes (the
`reloading` flag is observed true at every poll) then no retry budget at
all makes the wait loop proceed — the poll-and-retry loop has no cap and
the wait does not terminate. -/
theorem wait_loop_not_bounded :
    ¬ ∃ fuel, (waitLoop (fun _ => true) fuel 0).isSome = true := by
  rintro ⟨fuel, h⟩
  rw [waitLoop_allTrue] at h
  simp at h

/-- Index-shifted form of the wait-loop termination lemma. -/
theorem waitLoop_shift (sched : Nat → Bool) (n : Nat) :
    ∀ k, sched (k + n) = false → (∀ m, m < n → sched (k + m) = true) →
      waitLoop sched (n + 1) k = some (k + n) := by
  induction n with
  | zero =>
      intro k hn _
      simp only [Nat.add_zero] at hn ⊢
      simp [waitLoop, hn]
  | succ n ih =>
      intro k hn hbefore
      have h0 : sched k = true := by simpa using hbefore 0 (Nat.succ_pos n)
      have hn' : sched (k + 1 + n) = false := by
        rw [show k + 1 + n = k + (n + 1) by omega]; exact hn
      have hb' : ∀ m, m < n → sched (k + 1 + m) = true := by
        intro m hm
        rw [show k + 1 + m = k + (m + 1) by omega]
        exact hbefore (m + 1) (by omega)
      have := ih (k + 1) hn' hb'
      simp only [waitLoop, h0, if_pos] at this ⊢
      rw [this]
      congr 1
      omega

/-- C7 amended: the wait loop has no cap on attempts; it retries while the
flag is observed true and proceeds exactly at the first poll that observes
the flag false — so it terminates precisely when the in-flight refresh
eventually completes, and never otherwise. -/
theorem waitLoop_first_clear (sched : Nat → Bool) (n : Nat)
    (hn : sched n = false) (hbefore : ∀ m, m < n → sched m = true) :
    waitLoop sched (n + 1) 0 = some n := by
  have := waitLoop_shift sched n 0 (by simpa using hn)
    (fun m hm => by simpa using hbefore m hm)
  simpa using this

/-- Witness for C7's amended claim: the flag clears at the fourth poll. -/
theorem waitLoop_first_clear_witness :
    waitLoop (fun k => decide (k < 3)) (3 + 1) 0 = some 3 :=
  waitLoop_first_clear (fun k => decide (k < 3)) 3 (by decide)
    (fun m hm => decide_eq_true hm)

/-- C9: each refresh's clear step deletes only records whose id is `≥ 0`
(`_clearStore` deletes the key range `lowerBound(0)`; `_clearReviews`
deletes only matched records with `id > 0`), so any record stored under a
negative id survives every restaurants refresh and every per-restaurant
reviews refresh unchanged.  The hypotheses restrict the fetched data to
server-assigned (non-negative) ids, the domain on which `store.add` cannot
collide with a surviving key. -/
theorem negative_ids_survive (st : CacheState) (now now2 rid : Int)
    (d : List Restaurant) (rd : List Review)
    (_hd : ∀ x ∈ d, 0 ≤ x.id) (_hrd : ∀ x ∈ rd, 0 ≤ x.id) :
    (∀ r ∈ st.restaurants, r ∉ (clearStoreRestaurants st).restaurants → 0 ≤ r.id) ∧
    (∀ v ∈ st.reviews, v ∉ (clearStoreReviews st).reviews → 0 ≤ v.id) ∧
    (∀ v ∈ st.reviews, v ∉ (clearReviews st rid).reviews → 0 ≤ v.id) ∧
    (∀ r ∈ st.restaurants, r.id < 0 →
      r ∈ ((updateFromService st now (some d)).1).restaurants) ∧
    (∀ v ∈ st.reviews, v.id < 0 →
      v ∈ ((updateFromService st now (some d)).1).reviews) ∧
    (∀ v ∈ st.reviews, v.id < 0 →
      v ∈ ((updateReviewsFromService st rid now2 (some rd)).1).reviews) := by
  refine ⟨?_, ?_, ?_, ?_, ?_, ?_⟩
  · intro r hr hnot
    simp only [clearStoreRestaurants, List.mem_filter, decide_eq_true_eq, not_and] at hnot
    have := hnot hr
    omega
  · intro v hv hnot
    simp only [clearStoreReviews, List.mem_filter, decide_eq_true_eq, not_and] at hnot
    have := hnot hv
    omega
  · intro v hv hnot
    by_contra hneg
    apply hnot
    simp only [clearReviews, List.mem_filter]
    refine ⟨hv, ?_⟩
    have hid : decide (0 < v.id) = false := by simp; omega
    simp [hid]
  · intro r hr hneg
    unfold updateFromService
    by_cases hf : st.restLast > now - CACHE_LIFETIME
    · simpa [hf] using hr
    · simp only [hf, if_false, initRestaurantsFromService, insertRestaurantsFromData,
        clearStoreRestaurants, clearStoreReviews, ite_true, ite_false]
      simp [List.mem_filter, hr, hneg]
  · intro v hv hneg
    unfold updateFromService
    by_cases hf : st.restLast > now - CACHE_LIFETIME
    · simpa [hf] using hv
    · simp only [hf, if_false, initRestaurantsFromService, insertRestaurantsFromData,
        clearStoreRestaurants, clearStoreReviews, ite_true, ite_false]
      simp [List.mem_filter, hv, hneg]
  · intro v hv hneg
    unfold updateReviewsFromService
    by_cases hf : reviewsFresh st rid now2
    · simpa [hf] using hv
    · simp only [hf, if_false, insertReviewsFromData, clearReviews, ite_true, ite_false]
      simp [List.mem_filter, hv]
      exact Or.inl (Or.inr (by omega))

/-- Witness for C9: the negative-id record of `exState` survives the
concrete refreshes. -/
theorem negative_ids_survive_witness :
    (∀ x ∈ [exItalian], 0 ≤ x.id) ∧ (∀ x ∈ [exReview], 0 ≤ x.id) ∧
    exLocalRec ∈ exState.restaurants ∧ exLocalRec.id < 0 ∧
    exLocalRec ∈ ((updateFromService exState 100 (some [exItalian])).1).restaurants :=
  ⟨by decide, by decide, by decide, by decide,
   (negative_ids_survive exState 100 200 7 [exItalian] [exReview]
      (by decide) (by decide)).2.2.2.1 exLocalRec (by decide) (by decide)⟩

/-- The state after a successful restaurants refresh, in closed form. -/
theorem updateFromService_success (st : CacheState) (now : Int) (d : List Restaurant)
    (hstale : ¬ st.restLast > now - CACHE_LIFETIME) :
    (updateFromService st now (some d)).1 =
      { restaurants := st.restaurants.filter (fun r => decide (r.id < 0)) ++ d,
        reviews := st.reviews.filter (fun r => decide (r.id < 0)),
        restLast := now, revLast := [], reloading := false } := by
  simp [updateFromService, hstale, initRestaurantsFromService, insertRestaurantsFromData,
    clearStoreRestaurants, clearStoreReviews]

/-- C4 counterexample: the clear and the repopulate run in separate
transactions, so the store durably passes through a cleared-but-not-yet-
repopulated state whose contents are neither the old nor the new snapshot;
and the record lookup inside `toggleFavorite` — which never consults the
`reloading` flag — can observe it: at that intermediate state the lookup of
restaurant 42 finds nothing (the call hangs), while against the pre-refresh
state it settles. -/
theorem refresh_clear_insert_not_atomic :
    ∃ s ∈ refreshIntermediates exState 100 [exItalian],
      s.restaurants ≠ exState.restaurants ∧
      s.restaurants ≠ ((updateFromService exState 100 (some [exItalian])).1).restaurants ∧
      (toggleFavorite s 42 true).2.1 = ToggleResult.pending ∧
      (toggleFavorite exState 42 true).2.1 ≠ ToggleResult.pending := by
  refine ⟨clearStoreRestaurants { exState with reloading := true }, ?_, ?_, ?_, ?_, ?_⟩
  · simp [refreshIntermediates]
  · decide
  · decide
  · decide
  · decide

/-- C4 amended: a torn (cleared-but-not-yet-repopulated) state exists, but
every intermediate state of the refresh that a freshness-gated reader can
observe (`reloading = false`, since such readers poll until the flag
clears) is the fully repopulated final state of the refresh — gated
readers see the clear and repopulate as one atomic unit, while the ungated
lookup in `toggleFavorite` does not enjoy this guarantee. -/
theorem refresh_atomic_for_gated_readers (st : CacheState) (now : Int)
    (d : List Restaurant) (s : CacheState)
    (hstale : ¬ st.restLast > now - CACHE_LIFETIME)
    (hs : s ∈ refreshIntermediates st now d) (hgate : s.reloading = false) :
    s = (updateFromService st now (some d)).1 ∧
    s.restaurants = st.restaurants.filter (fun r => decide (r.id < 0)) ++ d := by
  rw [updateFromService_success st now d hstale]
  simp only [refreshIntermediates, List.mem_cons, List.not_mem_nil, or_false] at hs
  rcases hs with h | h | h | h | h <;> subst h
  · simp at hgate
  · simp [clearStoreRestaurants] at hgate
  · simp [clearStoreRestaurants, clearStoreReviews] at hgate
  · simp [clearStoreRestaurants, clearStoreReviews] at hgate
  · constructor
    · simp [clearStoreRestaurants, clearStoreReviews]
    · simp [clearStoreRestaurants, clearStoreReviews]

/-- Witness for C4's amended claim: the final intermediate state of the
concrete refresh of `exState` at time 100. -/
theorem refresh_atomic_for_gated_readers_witness :
    exFinalState = (updateFromService exState 100 (some [exItalian])).1 ∧
    exFinalState.restaurants =
      exState.restaurants.filter (fun r => decide (r.id < 0)) ++ [exItalian] :=
  refresh_atomic_for_gated_readers exState 100 [exItalian] exFinalState
    (by decide) (by decide) (by decide)

/-- The reviews store after a stale per-restaurant refresh, in closed
form. -/
theorem updateReviewsFromService_reviews_stale (st : CacheState) (rid now : Int)
    (data : List Review) (hf : reviewsFresh st rid now = false) :
    ((updateReviewsFromService st rid now (some data)).1).reviews =
      st.reviews.filter
        (fun r => !(decide (r.restaurant_id = rid) && decide (0 < r.id))) ++ data := by
  simp [updateReviewsFromService, hf, insertReviewsFromData, clearReviews]

/-- Unfolding of the result component of `fetchReviews`. -/
theorem fetchReviews_snd (st : CacheState) (rid now : Int) (fr : Option (List Review)) :
    (fetchReviews st rid now fr).2 =
      fetchByIndexReviews (updateReviewsFromService st rid now fr).1 rid := rfl

/-- Every review returned by a freshness-gated `fetchReviews` comes either
from the prior local store or from the fetched data. -/
theorem mem_fetchReviews_result (st : CacheState) (rid now : Int)
    (data : List Review) (v : Review)
    (hv : v ∈ (fetchReviews st rid now (some data)).2) :
    v ∈ st.reviews ∨ v ∈ data := by
  unfold fetchReviews fetchByIndexReviews at hv
  have hv' := (List.mem_filter.mp hv).1
  by_cases hf : reviewsFresh st rid now
  · left
    simpa [updateReviewsFromService, hf] using hv'
  · rw [updateReviewsFromService_reviews_stale st rid now data
      (Bool.not_eq_true _ ▸ hf)] at hv'
    rcases List.mem_append.mp hv' with h | h
    · exact Or.inl (List.mem_filter.mp h).1
    · exact Or.inr h

/-- C3: `addReview` sends the review to the remote service and performs no
local store write; a `fetchReviews` answered before the server has stored
the review cannot return it (wherever it reads from, the review exists
neither locally nor remotely), and a `fetchReviews` refresh after the
server stored it returns it. -/
theorem addReview_remote_then_refresh
    (st : CacheState) (server : List Review) (rid : Int) (nm : String)
    (rating : Int) (cm : String) (newId now now2 : Int)
    (hlocal : ∀ v ∈ st.reviews, v.id ≠ newId)
    (hserver : ∀ v ∈ server, v.id ≠ newId)
    (hstale2 : reviewsFresh (fetchReviews st rid now (some (serverReviewsFor server rid))).1
      rid now2 = false) :
    (addReview st rid nm rating cm).1 = st ∧
    (∀ v ∈ (fetchReviews st rid now (some (serverReviewsFor server rid))).2, v.id ≠ newId) ∧
    (∃ v ∈ (fetchReviews (fetchReviews st rid now (some (serverReviewsFor server rid))).1
        rid now2
        (some (serverReviewsFor
          (serverProcessPost server (addReview st rid nm rating cm).2 newId) rid))).2,
      v.id = newId ∧ v.restaurant_id = rid ∧ v.name = nm ∧ v.rating = rating ∧
        v.comments = cm) := by
  refine ⟨rfl, ?_, ?_⟩
  · intro v hv
    rcases mem_fetchReviews_result st rid now (serverReviewsFor server rid) v hv with h | h
    · exact hlocal v h
    · exact hserver v (List.mem_filter.mp h).1
  · refine ⟨⟨newId, rid, nm, rating, cm⟩, ?_, rfl, rfl, rfl, rfl, rfl⟩
    rw [fetchReviews_snd]
    unfold fetchByIndexReviews
    apply List.mem_filter.mpr
    refine ⟨?_, by simp⟩
    rw [updateReviewsFromService_reviews_stale _ rid now2 _ hstale2]
    apply List.mem_append_right
    apply List.mem_filter.mpr
    refine ⟨?_, by simp⟩
    simp [serverProcessPost, addReview]

/-- Witness for C3: Alice's review of restaurant 7, posted against
`exState` and `exServer`, with the second read at time 200. -/
theorem addReview_remote_then_refresh_witness :
    (∀ v ∈ exState.reviews, v.id ≠ 99) ∧ (∀ v ∈ exServer, v.id ≠ 99) ∧
    reviewsFresh (fetchReviews exState 7 100 (some (serverReviewsFor exServer 7))).1
      7 200 = false ∧
    ((addReview exState 7 "Alice" 5 "Great").1 = exState ∧
     (∀ v ∈ (fetchReviews exState 7 100 (some (serverReviewsFor exServer 7))).2,
       v.id ≠ 99) ∧
     (∃ v ∈ (fetchReviews (fetchReviews exState 7 100 (some (serverReviewsFor exServer 7))).1
         7 200
         (some (serverReviewsFor
           (serverProcessPost exServer (addReview exState 7 "Alice" 5 "Great").2 99) 7))).2,
       v.id = 99 ∧ v.restaurant_id = 7 ∧ v.name = "Alice" ∧ v.rating = 5 ∧
         v.comments = "Great")) :=
  ⟨by decide, by decide, by decide,
   addReview_remote_then_refresh exState exServer 7 "Alice" 5 "Great" 99 100 200
     (by decide) (by decide) (by decide)⟩

end DBHelper
